import Mathlib

set_option autoImplicit false

/-!
Verification development for the `genie` repository (geniepy).

Shallow embedding of:
  - `geniepy/datamgmt/parsers.py` — `BaseParser.is_valid`, `CtdParser.schema`,
    `CtdParser.parse`;
  - `geniepy/datamgmt/dao.py` — `BaseDao.save`, `CtdDao.download`;
  - `geniepy/pubmed_historical.py` — `is_xml_article_set`,
    `decompress_article_set`, `parse_pubmed_article_set`,
    `concurrent_execution`, and the worker-count handling of `__main__`.

Stateful code is embedded by explicit state passing over a filesystem model
(an association list from paths to byte contents) plus a log trace; fallible
code returns `Except`.
-/

namespace Genie

/-- Python exceptions raised by the embedded code paths. -/
inductive PyErr
  | schemaError
  | notImplementedError
  | parseError
  | badGzipFile
  | fileNotFound
  deriving DecidableEq, Repr

/-- Pandas column dtypes relevant to the embedded schemas: `int64` (what
`IsDtypeValidation(int)` expects) and a catch-all for every other dtype. -/
inductive DType
  | int64
  | other
  deriving DecidableEq, Repr

/-- One pandas DataFrame column: its name, its dtype (fixed when the frame is
constructed, before validation sees it), and the string rendering of its
cells (`series.astype(str)`), which is what pattern validations inspect. -/
structure DFColumn where
  name : String
  dtype : DType
  cells : List String
  deriving DecidableEq, Repr

/-- A pandas DataFrame, as the list of its named columns. -/
abbrev DataFrame := List DFColumn

/-- The regular expression `^D(\d)+$` of
`MatchesPatternValidation` in `CtdParser.schema` (`parsers.py`):
a literal `D` followed by one or more digits, anchored at both ends. -/
def matchesDiseaseId (s : String) : Bool :=
  match s.data with
  | [] => false
  | c :: rest => c == 'D' && !rest.isEmpty && rest.all Char.isDigit

/-- The `pandas_schema` validations that appear in `parsers.py`:
`IsDtypeValidation(dt)` and `MatchesPatternValidation("^D(\d)+$")`. -/
inductive ColValidation
  | isDtype (dt : DType)
  | matchesPatternDiseaseId
  deriving DecidableEq, Repr

/-- A `pandas_schema.Column`: a name plus its validations. -/
structure SchemaColumn where
  name : String
  validations : List ColValidation
  deriving DecidableEq, Repr

/-- A `pandas_schema.Schema`, as its list of declared columns. -/
abbrev Schema := List SchemaColumn

/-- Modelled from the spec: the `pandas_schema` library itself is not under
`src/` (only its caller `BaseParser.is_valid` is).  Per the spec's
SchemaValidator contract, a validation applied to one column yields warnings:
a dtype validation warns once when the column's dtype differs from the
expected one; a pattern validation warns once per cell whose string rendering
does not match. -/
def validationErrors (v : ColValidation) (col : DFColumn) : List String :=
  match v with
  | .isDtype dt =>
      if col.dtype = dt then []
      else ["dtype mismatch in column " ++ col.name]
  | .matchesPatternDiseaseId =>
      (col.cells.filter (fun s => !matchesDiseaseId s)).map
        (fun s => "pattern mismatch: " ++ s)

/-- First column of the frame carrying the given name, if any. -/
def findColumn (df : DataFrame) (nm : String) : Option DFColumn :=
  df.find? (fun c => c.name == nm)

/-- Modelled from the spec: `pandas_schema.Schema.validate(df)` — the library
is not under `src/`.  Per the spec's SchemaValidator contract it returns the
collected warnings: one for each declared column missing from the frame, and
the per-validation warnings for each declared column that is present. -/
def schemaValidate (schema : Schema) (df : DataFrame) : List String :=
  schema.flatMap (fun sc =>
    match findColumn df sc.name with
    | none => ["column " ++ sc.name ++ " missing from the data frame"]
    | some col => sc.validations.flatMap (fun v => validationErrors v col))

/-- `BaseParser.is_valid` (`parsers.py`): `None` payloads are invalid;
otherwise the payload is valid exactly when `schema.validate` returns no
warnings. -/
def is_valid (schema : Schema) (payload : Option DataFrame) : Bool :=
  match payload with
  | none => false
  | some df =>
    let errors := schemaValidate schema df
    if errors ≠ [] then false else true

/-- `CtdParser.schema` (`parsers.py`): GeneSymbol; GeneID (int dtype);
DiseaseName; DiseaseID (pattern `^D(\d)+$`); PubMedIDs (int dtype). -/
def ctdSchema : Schema :=
  [ ⟨"GeneSymbol", []⟩,
    ⟨"GeneID", [.isDtype .int64]⟩,
    ⟨"DiseaseName", []⟩,
    ⟨"DiseaseID", [.matchesPatternDiseaseId]⟩,
    ⟨"PubMedIDs", [.isDtype .int64]⟩ ]

/-- `BaseParser.DataType` (`parsers.py`). -/
inductive DataType
  | DEFAULT
  | CSV
  | STRING
  deriving DecidableEq, Repr

/-- `CtdParser.parse` (`parsers.py`): the body is just `return None`, for
every input and every data kind; in particular it never raises. -/
def ctdParser_parse {α : Type} (data : α) (type : DataType) :
    Except PyErr (Option DataFrame) :=
  Except.ok none

/-- `BaseDao.save` (`dao.py`): raise `SchemaError` when the bound parser's
`is_valid` rejects the payload, otherwise forward the payload to
`repository.save`.  The result records the raised exception (if any) together
with the list of payloads forwarded to `repository.save` during the call. -/
def dao_save (parserValid : Option DataFrame → Bool) (payload : Option DataFrame) :
    Except PyErr Unit × List (Option DataFrame) :=
  if !parserValid payload then (Except.error PyErr.schemaError, [])
  else (Except.ok (), [payload])

/-- `CtdDao.save`: `BaseDao.save` with the bound `CtdParser`. -/
def ctd_dao_save (payload : Option DataFrame) :
    Except PyErr Unit × List (Option DataFrame) :=
  dao_save (is_valid ctdSchema) payload

/-- `CtdDao.download` (`dao.py`): the body is entirely commented out (a TODO
stub), so the call performs no repository write, returns `None`, and raises
nothing.  The repository's saved state is passed in and returned unchanged. -/
def ctd_dao_download (repo : List DataFrame) : Except PyErr (List DataFrame) :=
  Except.ok repo

/-! ### String operations used by `pubmed_historical.py` -/

/-- Worker for `replaceAll`, structurally recursive on a fuel bound.  Each
step consumes at least one character, so fuel `s.length` always suffices and
the fuel-exhausted branch is never reached from `replaceAll`. -/
def replaceAllAux (old new : List Char) : Nat → List Char → List Char
  | 0, s => s
  | _ + 1, [] => []
  | fuel + 1, c :: rest =>
    if old ≠ [] ∧ old.isPrefixOf (c :: rest) then
      new ++ replaceAllAux old new fuel ((c :: rest).drop old.length)
    else
      c :: replaceAllAux old new fuel rest

/-- Python `str.replace(old, new)` on character lists: replace every
non-overlapping occurrence of `old`, scanning left to right.  (All call
sites in the source pass a non-empty `old`; for `old = []` this returns the
string unchanged.) -/
def replaceAll (old new s : List Char) : List Char :=
  replaceAllAux old new s.length s

/-- Python `str.replace` on strings. -/
def pyReplace (s old new : String) : String :=
  ⟨replaceAll old.data new.data s.data⟩

/-- Python `str.endswith`. -/
def strEndsWith (s suffix : String) : Bool :=
  suffix.data.isSuffixOf s.data

/-- `os.path.basename`: everything after the last path separator. -/
def basename (s : String) : String :=
  ⟨s.data.foldl (fun acc c => if c = '/' then [] else acc ++ [c]) []⟩

/-- `os.path.join(dir, name)` for a relative `name`. -/
def joinPath (dir nm : String) : String := dir ++ "/" ++ nm

/-- `is_xml_article_set` (`pubmed_historical.py`): true exactly when the
file name ends with `.xml.gz`. -/
def is_xml_article_set (filename : String) : Bool :=
  strEndsWith filename (".xml.gz")

/-! ### Filesystem and log model -/

/-- File contents as bytes. -/
abbrev Bytes := List Nat

/-- A filesystem: an association list from paths to contents. -/
abbrev FileSys := List (String × Bytes)

/-- `os.path.exists`. -/
def fsExists (fs : FileSys) (p : String) : Bool := fs.any (fun e => e.1 == p)

/-- Read a file's contents (all modelled reads are of existing files; a
missing path reads as empty). -/
def fsRead (fs : FileSys) (p : String) : Bytes :=
  ((fs.find? (fun e => e.1 == p)).map Prod.snd).getD []

/-- `os.remove`. -/
def fsRemove (fs : FileSys) (p : String) : FileSys :=
  fs.filter (fun e => e.1 != p)

/-- `open(p, "wb")` followed by writing `v`. -/
def fsWrite (fs : FileSys) (p : String) (v : Bytes) : FileSys :=
  (p, v) :: fsRemove fs p

/-- A log line, at `logging.info` or `logging.error` level. -/
inductive LogEntry
  | info (msg : String)
  | error (msg : String)
  deriving DecidableEq, Repr

/-- Whether a log line is at error level. -/
def LogEntry.isError : LogEntry → Bool
  | .info _ => false
  | .error _ => true

/-- The observable state threaded through the pipeline: the filesystem plus
the emitted log trace. -/
structure PState where
  fs : FileSys
  log : List LogEntry
  deriving DecidableEq, Repr

/-- `logging.info`. -/
def logInfo (st : PState) (msg : String) : PState :=
  { st with log := st.log ++ [LogEntry.info msg] }

/-! ### The bulk-ingestion pipeline (`pubmed_historical.py`) -/

/-- External collaborators of the pipeline, abstracted as parameters:
`ArticleSetParser.extract_articles` / `articles_to_jsonl` come from the
`pubmed` package (not under `src/`), and gzip (de)compression from the
Python standard library.  Articles are opaque values (`Nat`); the fallible
operations are modelled as functions of the file contents involved. -/
structure WorkerEnv where
  extract_articles : Bytes → Except PyErr (List Nat)
  articles_to_jsonl : List Nat → Bytes
  gzip_compress : Bytes → Bytes
  gzip_decompress : Bytes → Except PyErr Bytes

/-- `decompress_article_set` (`pubmed_historical.py`): `gzip.open` the
archive, `open(output_file, "wb")`, stream-copy.  A missing archive raises
before the output file is created; a corrupt archive raises after the output
file has been created (it is left behind, modelled with empty contents). -/
def decompress_article_set (env : WorkerEnv) (st : PState)
    (file_path output_file : String) : Except (PyErr × PState) PState :=
  if !fsExists st.fs file_path then
    Except.error (PyErr.fileNotFound, st)
  else
    match env.gzip_decompress (fsRead st.fs file_path) with
    | .ok content => Except.ok { st with fs := fsWrite st.fs output_file content }
    | .error e => Except.error (e, { st with fs := fsWrite st.fs output_file [] })

/-- The tail of `parse_pubmed_article_set` from the `"Parsing %s"` log line
onward: extract the articles, delete the xml intermediate, write the jsonl
output, read it back, compress it, write the `.gz` output, delete the
uncompressed jsonl, and log the per-file summary line. -/
def parse_from_xml (env : WorkerEnv) (filename out_path xml_file : String)
    (st : PState) : Except (PyErr × PState) PState :=
  let st := logInfo st ("Parsing " ++ xml_file)
  match env.extract_articles (fsRead st.fs xml_file) with
  | .error e => Except.error (e, st)
  | .ok article_list =>
    -- "Done with xml - delete to free up space"
    let st : PState := { st with fs := fsRemove st.fs xml_file }
    let output_file := joinPath out_path (pyReplace filename (".xml.gz") (".jsonl"))
    let st := logInfo st ("Generating " ++ output_file)
    let st : PState :=
      { st with fs := fsWrite st.fs output_file (env.articles_to_jsonl article_list) }
    let st := logInfo st ("Compressing file: " ++ output_file)
    let data_jsonl := fsRead st.fs output_file
    let compressed_data := env.gzip_compress data_jsonl
    let output_file_compressed := output_file ++ ".gz"
    let st : PState := { st with fs := fsWrite st.fs output_file_compressed compressed_data }
    -- "Done with parsed file - delete to free up space"
    let st : PState := { st with fs := fsRemove st.fs output_file }
    let st := logInfo st ("File Processed: " ++ output_file)
    Except.ok st

/-- `parse_pubmed_article_set` (`pubmed_historical.py`): skip non-archives;
derive the xml target by `in_path.replace(".gz", "")`; decompress into it
only when it does not already exist; then continue with `parse_from_xml`. -/
def parse_pubmed_article_set (env : WorkerEnv) (in_path out_path : String)
    (st : PState) : Except (PyErr × PState) PState :=
  let filename := basename in_path
  if !is_xml_article_set filename then Except.ok st
  else
    let xml_file := pyReplace in_path (".gz") ("")
    if fsExists st.fs xml_file then
      parse_from_xml env filename out_path xml_file st
    else
      let st := logInfo st ("Extracting " ++ in_path ++ " to " ++ xml_file)
      match decompress_article_set env st in_path xml_file with
      | .error e => Except.error e
      | .ok st => parse_from_xml env filename out_path xml_file st

/-- One submission to the `ProcessPoolExecutor`: the worker runs
`parse_pubmed_article_set`; an exception it raises is captured in the future
and, because `executor.map`'s result iterator is never consumed, dropped —
never re-raised in the dispatcher. -/
def runWorkItem (env : WorkerEnv) (out_path : String) (st : PState)
    (f : String) : PState :=
  match parse_pubmed_article_set env f out_path st with
  | .ok st' => st'
  | .error (_, st') => st'

/-- The `executor.map` dispatch over all selected archive files. -/
def dispatchAll (env : WorkerEnv) (out_path : String) (xml_files : List String)
    (st : PState) : PState :=
  xml_files.foldl (runWorkItem env out_path) st

/-- `concurrent_execution` (`pubmed_historical.py`): filter the directory
listing (`os.listdir` result) for archive names, dispatch each (joined with
the input directory) to the pool, wait for all of them, and log the
aggregate line.  Workers act on disjoint files; their effects are threaded
sequentially through the shared state. -/
def concurrent_execution (env : WorkerEnv) (listing : List String)
    (data_in_dir data_out_dir : String) (max_workers : Int) (st : PState) : PState :=
  let xml_files := (listing.filter (fun f => is_xml_article_set f)).map
    (fun f => joinPath data_in_dir f)
  let st := logInfo st ("Found " ++ toString xml_files.length ++ " PubMed article sets")
  let st := dispatchAll env data_out_dir xml_files st
  logInfo st ("Concurrent Process " ++ toString max_workers ++ " Execution: " ++
    toString xml_files.length ++ " files")

/-- The worker-count handling of `__main__` (`pubmed_historical.py`): after
`int(sys.argv[3])` succeeds, a value outside `[1, 16]` logs an error line
and is replaced by `1`.  Returns the effective `MAX_WORKERS` together with
the log lines emitted. -/
def resolve_max_workers (n : Int) : Int × List LogEntry :=
  if n < 1 ∨ n > 16 then
    (1, [LogEntry.error ("Invalid number of workers requested - Setting number of workers to 1")])
  else (n, [])

/-! ### Spec-side naming rules (for refinement comparison only) -/

/-- The naming rule in the claim's words: the archive path with its `.gz`
suffix removed (unchanged when the suffix is absent). -/
def specGzSuffixStripped (p : String) : String :=
  if strEndsWith p (".gz") then ⟨p.data.take (p.data.length - 3)⟩ else p

/-- The output naming rule in the claim's words: an archive `<name>.xml.gz`
serializes to `<name>.jsonl`. -/
def specJsonlName (filename : String) : String :=
  ⟨filename.data.take (filename.data.length - 7) ++ (".jsonl").data⟩

/-! ### Association-list filesystem lemmas -/

theorem fsRemove_cons_drop (e : String × Bytes) (t : FileSys) (p : String)
    (he : e.1 = p) : fsRemove (e :: t) p = fsRemove t p := by
  simp [fsRemove, List.filter_cons, he]

theorem fsRemove_cons_keep (e : String × Bytes) (t : FileSys) (p : String)
    (he : ¬ e.1 = p) : fsRemove (e :: t) p = e :: fsRemove t p := by
  simp [fsRemove, List.filter_cons, he]

theorem fsRemove_find?_ne (fs : FileSys) (p q : String) (h : q ≠ p) :
    (fsRemove fs p).find? (fun e => e.1 == q) = fs.find? (fun e => e.1 == q) := by
  induction fs with
  | nil => rfl
  | cons e t ih =>
    by_cases he : e.1 = p
    · have h2 : ¬ ((fun e : String × Bytes => e.1 == q) e) = true := by
        simp only [beq_iff_eq, he]
        exact fun hh => h hh.symm
      rw [fsRemove_cons_drop e t p he, List.find?_cons_of_neg t h2]
      exact ih
    · by_cases hq : e.1 = q
      · have h2 : ((fun e : String × Bytes => e.1 == q) e) = true := by simp [hq]
        rw [fsRemove_cons_keep e t p he, List.find?_cons_of_pos (fsRemove t p) h2,
          List.find?_cons_of_pos t h2]
      · have h2 : ¬ ((fun e : String × Bytes => e.1 == q) e) = true := by simp [hq]
        rw [fsRemove_cons_keep e t p he, List.find?_cons_of_neg (fsRemove t p) h2,
          List.find?_cons_of_neg t h2]
        exact ih

theorem fsRemove_exists_ne (fs : FileSys) (p q : String) (h : q ≠ p) :
    fsExists (fsRemove fs p) q = fsExists fs q := by
  induction fs with
  | nil => rfl
  | cons e t ih =>
    have h3 : fsExists (e :: t) q = ((e.1 == q) || fsExists t q) := rfl
    by_cases he : e.1 = p
    · have h2 : (e.1 == q) = false := by
        simp only [beq_eq_false_iff_ne, he]
        exact fun hh => h hh.symm
      rw [fsRemove_cons_drop e t p he, ih, h3, h2, Bool.false_or]
    · have h4 : fsExists (e :: fsRemove t p) q = ((e.1 == q) || fsExists (fsRemove t p) q) := rfl
      rw [fsRemove_cons_keep e t p he, h4, ih, ← h3]

theorem fsExists_remove_self (fs : FileSys) (p : String) :
    fsExists (fsRemove fs p) p = false := by
  induction fs with
  | nil => rfl
  | cons e t ih =>
    by_cases he : e.1 = p
    · rw [fsRemove_cons_drop e t p he]
      exact ih
    · have h2 : (e.1 == p) = false := by simp [he]
      have h4 : fsExists (e :: fsRemove t p) p = ((e.1 == p) || fsExists (fsRemove t p) p) := rfl
      rw [fsRemove_cons_keep e t p he, h4, h2, ih, Bool.false_or]

theorem fsRead_write_self (fs : FileSys) (p : String) (v : Bytes) :
    fsRead (fsWrite fs p v) p = v := by
  simp [fsRead, fsWrite, List.find?]

theorem fsRead_write_other (fs : FileSys) (p q : String) (v : Bytes) (h : q ≠ p) :
    fsRead (fsWrite fs p v) q = fsRead fs q := by
  have h2 : ¬ ((fun e : String × Bytes => e.1 == q) (p, v)) = true := by
    simp only [beq_iff_eq]
    exact fun hh => h hh.symm
  have h3 : fsRead (fsWrite fs p v) q =
      ((List.find? (fun e => e.1 == q) ((p, v) :: fsRemove fs p)).map Prod.snd).getD [] := rfl
  rw [h3, List.find?_cons_of_neg (fsRemove fs p) h2, fsRemove_find?_ne fs p q h]
  rfl

theorem fsExists_write_self (fs : FileSys) (p : String) (v : Bytes) :
    fsExists (fsWrite fs p v) p = true := by
  simp [fsExists, fsWrite]

theorem fsExists_write_other (fs : FileSys) (p q : String) (v : Bytes) (h : q ≠ p) :
    fsExists (fsWrite fs p v) q = fsExists fs q := by
  have h2 : (((p, v) : String × Bytes).1 == q) = false := by
    simp only [beq_eq_false_iff_ne]
    exact fun hh => h hh.symm
  have h3 : fsExists (fsWrite fs p v) q =
      ((((p, v) : String × Bytes).1 == q) || fsExists (fsRemove fs p) q) := rfl
  rw [h3, h2, fsRemove_exists_ne fs p q h, Bool.false_or]

theorem string_append_ne (s t : String) (ht : t ≠ "") : s ++ t ≠ s := by
  intro h
  apply ht
  have hd : s.data ++ t.data = s.data := congrArg String.data h
  have hlen := congrArg List.length hd
  simp at hlen
  cases t with
  | mk d => simp_all

/-! ### Schema-validation facts (claim C2) -/

/-- What it means for a present column to satisfy one declared constraint:
the expected dtype for a dtype validation, and every cell matching for the
pattern validation. -/
def satisfiesValidation (col : DFColumn) : ColValidation → Prop
  | .isDtype dt => col.dtype = dt
  | .matchesPatternDiseaseId => ∀ s ∈ col.cells, matchesDiseaseId s = true

theorem validationErrors_eq_nil (v : ColValidation) (col : DFColumn) :
    validationErrors v col = [] ↔ satisfiesValidation col v := by
  cases v with
  | isDtype dt =>
    by_cases h : col.dtype = dt <;> simp [validationErrors, satisfiesValidation, h]
  | matchesPatternDiseaseId =>
    simp [validationErrors, satisfiesValidation, List.map_eq_nil_iff,
      List.filter_eq_nil_iff]

theorem schemaValidate_eq_nil (schema : Schema) (df : DataFrame) :
    schemaValidate schema df = [] ↔
      ∀ sc ∈ schema, ∃ col, findColumn df sc.name = some col ∧
        ∀ v ∈ sc.validations, satisfiesValidation col v := by
  rw [schemaValidate, List.flatMap_eq_nil_iff]
  constructor
  · intro h sc hsc
    have hmem := h sc hsc
    cases hfc : findColumn df sc.name with
    | none =>
      rw [hfc] at hmem
      simp at hmem
    | some col =>
      rw [hfc] at hmem
      refine ⟨col, rfl, ?_⟩
      rw [List.flatMap_eq_nil_iff] at hmem
      intro v hv
      exact (validationErrors_eq_nil v col).mp (hmem v hv)
  · intro h sc hsc
    obtain ⟨col, hfc, hall⟩ := h sc hsc
    rw [hfc, List.flatMap_eq_nil_iff]
    intro v hv
    exact (validationErrors_eq_nil v col).mpr (hall v hv)

theorem is_valid_eq_true_iff (schema : Schema) (payload : Option DataFrame) :
    is_valid schema payload = true ↔
      ∃ df, payload = some df ∧ schemaValidate schema df = [] := by
  cases payload with
  | none => simp [is_valid]
  | some df =>
    by_cases h : schemaValidate schema df = [] <;> simp [is_valid, h]

/-- A concrete frame satisfying `ctdSchema` (used by witnesses). -/
def ctdValidDF : DataFrame :=
  [ ⟨"GeneSymbol", .other, ["PHYHIP"]⟩,
    ⟨"GeneID", .int64, ["9796"]⟩,
    ⟨"DiseaseName", .other, ["Alzheimer Disease"]⟩,
    ⟨"DiseaseID", .other, ["D000544"]⟩,
    ⟨"PubMedIDs", .int64, ["12345"]⟩ ]

/-- C2: `is_valid` returns false on an absent/null payload; on a present
payload it returns true exactly when every declared schema column is present
in the frame and satisfies all of its constraints (dtype and pattern), and
hence false as soon as any declared column is missing, wrongly typed, or
pattern-mismatched; the result is a single boolean over the whole batch. -/
theorem C2_is_valid_spec (schema : Schema) (payload : Option DataFrame) :
    is_valid schema payload = true ↔
      ∃ df, payload = some df ∧
        ∀ sc ∈ schema, ∃ col, findColumn df sc.name = some col ∧
          ∀ v ∈ sc.validations, satisfiesValidation col v := by
  rw [is_valid_eq_true_iff]
  constructor
  · rintro ⟨df, rfl, h⟩
    exact ⟨df, rfl, (schemaValidate_eq_nil schema df).mp h⟩
  · rintro ⟨df, rfl, h⟩
    exact ⟨df, rfl, (schemaValidate_eq_nil schema df).mpr h⟩

/-- C1: `BaseDao.save` with the bound parser's `is_valid`: an invalid batch
makes it raise `SchemaError` and forward nothing to the repository; a valid
batch is forwarded exactly once, unchanged, and nothing is raised. -/
theorem C1_dao_save_spec (parserValid : Option DataFrame → Bool)
    (payload : Option DataFrame) :
    (parserValid payload = false →
      dao_save parserValid payload = (Except.error PyErr.schemaError, []))
  ∧ (parserValid payload = true →
      dao_save parserValid payload = (Except.ok (), [payload])) := by
  constructor <;> intro h <;> simp [dao_save, h]

/-- Witness for C1: the `CtdDao` instantiation, on a concrete valid frame
and on the null payload. -/
theorem C1_dao_save_spec_witness :
    dao_save (is_valid ctdSchema) (some ctdValidDF) = (Except.ok (), [some ctdValidDF])
  ∧ dao_save (is_valid ctdSchema) none = (Except.error PyErr.schemaError, []) :=
  ⟨(C1_dao_save_spec (is_valid ctdSchema) (some ctdValidDF)).2 (by decide),
   (C1_dao_save_spec (is_valid ctdSchema) none).1 (by decide)⟩

/-- C3 counterexample: `CtdDao.download` does not raise `NotImplementedError`
(its body is commented out, so the call succeeds as a no-op). -/
theorem C3_counterexample :
    ctd_dao_download [] = Except.ok [] ∧
      ctd_dao_download [] ≠ Except.error PyErr.notImplementedError :=
  ⟨rfl, fun h => by simp [ctd_dao_download] at h⟩

/-- C3 amended: calling `download()` on the CTD DAO is a no-op stub: it
returns with the repository unchanged and raises no exception at all. -/
theorem C3_amended (repo : List DataFrame) :
    ctd_dao_download repo = Except.ok repo ∧
      ∀ e : PyErr, ctd_dao_download repo ≠ Except.error e :=
  ⟨rfl, fun e h => by simp [ctd_dao_download] at h⟩

/-- C4: a worker count outside `[1, 16]` resolves to an effective count of 1
together with the logged warning line. -/
theorem C4_worker_clamp (n : Int) (h : n < 1 ∨ n > 16) :
    resolve_max_workers n =
      (1, [LogEntry.error ("Invalid number of workers requested - Setting number of workers to 1")]) := by
  rw [resolve_max_workers, if_pos h]

/-- Witness for C4 at the claim's example inputs 0 and 20. -/
theorem C4_worker_clamp_witness :
    resolve_max_workers 0 =
      (1, [LogEntry.error ("Invalid number of workers requested - Setting number of workers to 1")])
  ∧ resolve_max_workers 20 =
      (1, [LogEntry.error ("Invalid number of workers requested - Setting number of workers to 1")]) :=
  ⟨C4_worker_clamp 0 (Or.inl (by norm_num)), C4_worker_clamp 20 (Or.inr (by norm_num))⟩

/-- C10: `CtdParser.parse` returns the null batch for every input and every
data-kind selector, and never raises `ParseError`. -/
theorem C10_ctd_parse_null {α : Type} (data : α) (type : DataType) :
    ctdParser_parse data type = Except.ok none := rfl

/-! ### Pipeline state lemmas and claim C5 -/

theorem logInfo_fs (st : PState) (m : String) : (logInfo st m).fs = st.fs := rfl

theorem logInfo_log (st : PState) (m : String) :
    (logInfo st m).log = st.log ++ [LogEntry.info m] := rfl

theorem fsRead_remove_other (fs : FileSys) (p q : String) (h : q ≠ p) :
    fsRead (fsRemove fs p) q = fsRead fs q := by
  simp only [fsRead, fsRemove_find?_ne fs p q h]

/-- A concrete collaborator environment for witnesses and counterexamples:
articles are the bytes themselves, serialization is the identity, the gzip
codec keeps contents (compression prepends a marker byte, decompression is
the identity), and extraction fails exactly on the contents `[9]`. -/
def testEnv : WorkerEnv where
  extract_articles := fun b => if b = [9] then Except.error PyErr.parseError else Except.ok b
  articles_to_jsonl := fun a => a
  gzip_compress := fun b => 0 :: b
  gzip_decompress := fun b => Except.ok b

/-- C5 amended: in the per-file worker tail (`parse_from_xml`, the embedding
of `pubmed_historical.py` lines 69–95), the decompressed xml intermediate is
deleted immediately after a *successful* parse and stays absent in the final
state; but when parsing raises, nothing is deleted — the error state keeps
the filesystem exactly as it was, so an existing xml intermediate persists. -/
theorem C5_xml_cleanup (env : WorkerEnv) (filename out_path xml_file : String)
    (st : PState)
    (hout : joinPath out_path (pyReplace filename (".xml.gz") (".jsonl")) ≠ xml_file)
    (houtgz : joinPath out_path (pyReplace filename (".xml.gz") (".jsonl")) ++ ".gz" ≠ xml_file) :
    (∀ arts, env.extract_articles (fsRead st.fs xml_file) = Except.ok arts →
      ∃ st2, parse_from_xml env filename out_path xml_file st = Except.ok st2 ∧
        fsExists st2.fs xml_file = false)
  ∧ (∀ e, env.extract_articles (fsRead st.fs xml_file) = Except.error e →
      ∃ st2, parse_from_xml env filename out_path xml_file st = Except.error (e, st2) ∧
        st2.fs = st.fs) := by
  constructor
  · intro arts h
    unfold parse_from_xml
    simp only [logInfo_fs, h]
    refine ⟨_, rfl, ?_⟩
    simp only [logInfo_fs, fsExists_remove_self,
      fsRemove_exists_ne _ _ _ (Ne.symm hout),
      fsExists_write_other _ _ _ _ (Ne.symm houtgz),
      fsExists_write_other _ _ _ _ (Ne.symm hout)]
  · intro e h
    unfold parse_from_xml
    simp only [logInfo_fs, h]
    exact ⟨_, rfl, rfl⟩

/-- Witness for C5: the success case deletes the xml, the parse-error case
leaves the filesystem untouched (the xml persists). -/
theorem C5_xml_cleanup_witness :
    (∃ st2, parse_from_xml testEnv "f.xml.gz" "out" "in/f.xml"
        ⟨[("in/f.xml", [3])], []⟩ = Except.ok st2 ∧
        fsExists st2.fs ("in/f.xml") = false)
  ∧ (∃ st2, parse_from_xml testEnv "f.xml.gz" "out" "in/f.xml"
        ⟨[("in/f.xml", [9])], []⟩ = Except.error (PyErr.parseError, st2) ∧
        st2.fs = (⟨[("in/f.xml", [9])], []⟩ : PState).fs) :=
  ⟨(C5_xml_cleanup testEnv "f.xml.gz" "out" "in/f.xml" ⟨[("in/f.xml", [3])], []⟩
      (by decide) (by decide)).1 [3] (by rfl),
   (C5_xml_cleanup testEnv "f.xml.gz" "out" "in/f.xml" ⟨[("in/f.xml", [9])], []⟩
      (by decide) (by decide)).2 PyErr.parseError (by rfl)⟩

/-- C5 counterexample: a worker run on archive `in/f.xml.gz` whose parse
step raises leaves the decompressed intermediate `in/f.xml` on disk — the
deletion is not guaranteed on failure. -/
theorem C5_counterexample :
    (match parse_pubmed_article_set testEnv "in/f.xml.gz" "out"
        ⟨[("in/f.xml.gz", [9])], []⟩ with
     | .ok _ => false
     | .error (_, st2) => fsExists st2.fs ("in/f.xml")) = true := by decide

/-! ### Claim C6: output naming, compression, cleanup -/

/-- C6 amended: a worker that processes archive `in_path` to completion
(fresh decompression and successful parse) ends with the compressed output —
whose contents are the compression of the serialized records — at the path
obtained by replacing every occurrence of `.xml.gz` in the file name with
`.jsonl` and appending `.gz`; the uncompressed serialized file at that
`.jsonl` path is deleted, so only the compressed output survives. -/
theorem C6_output_pipeline (env : WorkerEnv) (in_path out_path : String)
    (st : PState) (dc : Bytes) (arts : List Nat)
    (hx : is_xml_article_set (basename in_path) = true)
    (hnx : fsExists st.fs (pyReplace in_path (".gz") ("")) = false)
    (hin : fsExists st.fs in_path = true)
    (hdc : env.gzip_decompress (fsRead st.fs in_path) = Except.ok dc)
    (hart : env.extract_articles dc = Except.ok arts) :
    ∃ st2, parse_pubmed_article_set env in_path out_path st = Except.ok st2 ∧
      fsRead st2.fs
        (joinPath out_path (pyReplace (basename in_path) (".xml.gz") (".jsonl")) ++ ".gz")
        = env.gzip_compress (env.articles_to_jsonl arts) ∧
      fsExists st2.fs
        (joinPath out_path (pyReplace (basename in_path) (".xml.gz") (".jsonl"))) = false := by
  unfold parse_pubmed_article_set decompress_article_set parse_from_xml
  simp only [hx, Bool.not_true, Bool.false_eq_true, if_false, hnx, logInfo_fs, hin,
    Bool.not_true, fsRead_write_self, hdc, hart]
  refine ⟨_, rfl, ?_, ?_⟩
  · simp only [logInfo_fs,
      fsRead_remove_other _ _ _ (string_append_ne _ (".gz") (by decide)),
      fsRead_write_self]
  · simp only [logInfo_fs, fsExists_remove_self]

/-- Witness for C6 on a concrete archive and environment. -/
theorem C6_output_pipeline_witness :
    ∃ st2, parse_pubmed_article_set testEnv "in/a.xml.gz" "out"
        ⟨[("in/a.xml.gz", [3])], []⟩ = Except.ok st2 ∧
      fsRead st2.fs
        (joinPath "out" (pyReplace (basename "in/a.xml.gz") (".xml.gz") (".jsonl")) ++ ".gz")
        = testEnv.gzip_compress (testEnv.articles_to_jsonl [3]) ∧
      fsExists st2.fs
        (joinPath "out" (pyReplace (basename "in/a.xml.gz") (".xml.gz") (".jsonl"))) = false :=
  C6_output_pipeline testEnv "in/a.xml.gz" "out" ⟨[("in/a.xml.gz", [3])], []⟩ [3] [3]
    (by decide) (by decide) (by decide) (by rfl) (by rfl)

/-- C6 counterexample: for the archive name `a.xml.gz.xml.gz` (that is,
`<name>.xml.gz` with `<name> = a.xml.gz`), a completed run does not produce
the claimed `out/<name>.jsonl.gz` (`out/a.xml.gz.jsonl.gz`); it produces
`out/a.jsonl.jsonl.gz`, because the code replaces every occurrence of
`.xml.gz` in the file name, not only the suffix. -/
theorem C6_counterexample :
    (match parse_pubmed_article_set testEnv "in/a.xml.gz.xml.gz" "out"
        ⟨[("in/a.xml.gz.xml.gz", [3])], []⟩ with
     | .ok st2 =>
        !fsExists st2.fs (joinPath "out" (specJsonlName "a.xml.gz.xml.gz") ++ ".gz")
          && fsExists st2.fs ("out/a.jsonl.jsonl.gz")
     | .error _ => false) = true := by decide

/-! ### Claim C9: decompression target and skip-if-exists -/

/-- C9 amended: for an archive whose name passes the `.xml.gz` check, the
worker's decompression target is `in_path.replace(".gz", "")` — the archive
path with *every* occurrence of `.gz` removed (this equals removing only the
trailing suffix whenever `.gz` occurs nowhere else).  When that target
already exists the worker parses it as-is, touching neither filesystem nor
log before the parse stage; when it does not exist, the archive is
decompressed into exactly that target before parsing. -/
theorem C9_decompress_guard (env : WorkerEnv) (in_path out_path : String)
    (st : PState) (hx : is_xml_article_set (basename in_path) = true) :
    (fsExists st.fs (pyReplace in_path (".gz") ("")) = true →
      parse_pubmed_article_set env in_path out_path st =
        parse_from_xml env (basename in_path) out_path (pyReplace in_path (".gz") ("")) st)
  ∧ (∀ c, fsExists st.fs (pyReplace in_path (".gz") ("")) = false →
      fsExists st.fs in_path = true →
      env.gzip_decompress (fsRead st.fs in_path) = Except.ok c →
      parse_pubmed_article_set env in_path out_path st =
        parse_from_xml env (basename in_path) out_path (pyReplace in_path (".gz") (""))
          ⟨fsWrite st.fs (pyReplace in_path (".gz") ("")) c,
           st.log ++ [LogEntry.info ("Extracting " ++ in_path ++ " to " ++
             pyReplace in_path (".gz") (""))]⟩) := by
  constructor
  · intro hex
    unfold parse_pubmed_article_set
    simp only [hx, Bool.not_true, Bool.false_eq_true, if_false, hex, if_true]
  · intro c hnx hin hdc
    unfold parse_pubmed_article_set decompress_article_set
    simp only [hx, Bool.not_true, Bool.false_eq_true, if_false, hnx, logInfo_fs,
      hin, hdc]
    rfl

/-- Witness for C9: an already-present target is reused as-is; a missing
target is created by decompressing into `replace(".gz", "")`. -/
theorem C9_decompress_guard_witness :
    (parse_pubmed_article_set testEnv "in/f.xml.gz" "out"
        ⟨[("in/f.xml", [3]), ("in/f.xml.gz", [7])], []⟩ =
      parse_from_xml testEnv (basename "in/f.xml.gz") "out"
        (pyReplace "in/f.xml.gz" (".gz") (""))
        ⟨[("in/f.xml", [3]), ("in/f.xml.gz", [7])], []⟩)
  ∧ (parse_pubmed_article_set testEnv "in/g.xml.gz" "out"
        ⟨[("in/g.xml.gz", [4])], []⟩ =
      parse_from_xml testEnv (basename "in/g.xml.gz") "out"
        (pyReplace "in/g.xml.gz" (".gz") (""))
        ⟨fsWrite [("in/g.xml.gz", [4])] (pyReplace "in/g.xml.gz" (".gz") ("")) [4],
         [] ++ [LogEntry.info ("Extracting " ++ "in/g.xml.gz" ++ " to " ++
           pyReplace "in/g.xml.gz" (".gz") (""))]⟩) :=
  ⟨(C9_decompress_guard testEnv "in/f.xml.gz" "out"
      ⟨[("in/f.xml", [3]), ("in/f.xml.gz", [7])], []⟩ (by decide)).1 (by decide),
   (C9_decompress_guard testEnv "in/g.xml.gz" "out"
      ⟨[("in/g.xml.gz", [4])], []⟩ (by decide)).2 [4] (by decide) (by decide) (by rfl)⟩

/-- C9 counterexample: for the archive path `a.gz.xml.gz`, the worker
decompresses into `a.xml` (every `.gz` occurrence removed), not into the
claimed sibling `a.gz.xml` (only the suffix removed): after a run whose
parse stage raises, `a.xml` exists and `a.gz.xml` does not. -/
theorem C9_counterexample :
    (match parse_pubmed_article_set testEnv "a.gz.xml.gz" "out"
        ⟨[("a.gz.xml.gz", [9])], []⟩ with
     | .ok _ => false
     | .error (_, st2) =>
        fsExists st2.fs ("a.xml")
          && !fsExists st2.fs (specGzSuffixStripped "a.gz.xml.gz")
          && !(pyReplace "a.gz.xml.gz" (".gz") ("") == specGzSuffixStripped "a.gz.xml.gz"))
      = true := by decide

/-! ### Claim C8: per-file failure isolation and (non-)reporting -/

/-- No entry of the trace is at error level. -/
def noErrorLogs (l : List LogEntry) : Bool := l.all (fun e => !e.isError)

theorem noErrorLogs_append (l1 l2 : List LogEntry) :
    noErrorLogs (l1 ++ l2) = (noErrorLogs l1 && noErrorLogs l2) := by
  simp [noErrorLogs]

theorem noErrorLogs_info_singleton (m : String) :
    noErrorLogs [LogEntry.info m] = true := by
  simp [noErrorLogs, LogEntry.isError]

theorem noErrorLogs_logInfo (st : PState) (m : String)
    (h : noErrorLogs st.log = true) : noErrorLogs (logInfo st m).log = true := by
  rw [logInfo_log, noErrorLogs_append, h, noErrorLogs_info_singleton]
  rfl

/-- The worker tail appends only info lines to the trace, whether it
returns or raises. -/
theorem parse_from_xml_noErrorLogs (env : WorkerEnv)
    (fn out_path xml_file : String) (st : PState)
    (h : noErrorLogs st.log = true) :
    noErrorLogs ((match parse_from_xml env fn out_path xml_file st with
      | .ok st2 => st2
      | .error (_, st2) => st2).log) = true := by
  unfold parse_from_xml
  cases he : env.extract_articles (fsRead (logInfo st ("Parsing " ++ xml_file)).fs xml_file) with
  | error e =>
    simp only [he]
    exact noErrorLogs_logInfo st _ h
  | ok arts =>
    simp only [he]
    simp [logInfo_log, noErrorLogs_append, noErrorLogs, LogEntry.isError] at h ⊢
    exact h

/-- The whole per-file worker appends only info lines to the trace, whether
it returns or raises: per-file errors are never logged. -/
theorem parse_pubmed_noErrorLogs (env : WorkerEnv) (in_path out_path : String)
    (st : PState) (h : noErrorLogs st.log = true) :
    noErrorLogs ((match parse_pubmed_article_set env in_path out_path st with
      | .ok st2 => st2
      | .error (_, st2) => st2).log) = true := by
  unfold parse_pubmed_article_set
  cases hb : is_xml_article_set (basename in_path) with
  | false =>
    simp only [hb, Bool.not_false, if_true]
    exact h
  | true =>
    simp only [hb, Bool.not_true, Bool.false_eq_true, if_false]
    cases hex : fsExists st.fs (pyReplace in_path (".gz") ("")) with
    | true =>
      simp only [if_true]
      exact parse_from_xml_noErrorLogs env _ out_path _ st h
    | false =>
      simp only [Bool.false_eq_true, if_false]
      unfold decompress_article_set
      simp only [logInfo_fs]
      cases hfe : fsExists st.fs in_path with
      | false =>
        simp only [Bool.not_false, if_true]
        exact noErrorLogs_logInfo st _ h
      | true =>
        simp only [Bool.not_true, Bool.false_eq_true, if_false]
        cases hgz : env.gzip_decompress (fsRead st.fs in_path) with
        | error e =>
          simp only [hgz]
          rw [logInfo_log]
          show noErrorLogs (st.log ++ [LogEntry.info _]) = true
          rw [noErrorLogs_append, h, noErrorLogs_info_singleton]
          rfl
        | ok content =>
          simp only [hgz]
          refine parse_from_xml_noErrorLogs env _ out_path _ _ ?_
          show noErrorLogs (st.log ++ [LogEntry.info _]) = true
          rw [noErrorLogs_append, h, noErrorLogs_info_singleton]
          rfl

theorem runWorkItem_noErrorLogs (env : WorkerEnv) (out_path f : String)
    (st : PState) (h : noErrorLogs st.log = true) :
    noErrorLogs (runWorkItem env out_path st f).log = true :=
  parse_pubmed_noErrorLogs env f out_path st h

theorem dispatchAll_noErrorLogs (env : WorkerEnv) (out_path : String)
    (xml_files : List String) (st : PState) (h : noErrorLogs st.log = true) :
    noErrorLogs (dispatchAll env out_path xml_files st).log = true := by
  induction xml_files generalizing st with
  | nil => exact h
  | cons f t ih =>
    exact ih (runWorkItem env out_path st f) (runWorkItem_noErrorLogs env out_path f st h)

/-- C8 amended (corrected claim): (i) dispatching is per-file compositional —
the files after any prefix are processed from whatever state the prefix
produced, so one file's failure (captured and dropped by the executor)
never aborts the processing of the remaining submitted files, and the
dispatcher always runs to completion; (ii) however, the run's log never
acquires an error-level entry: per-file errors are silently swallowed, not
reported. -/
theorem C8_failure_isolation (env : WorkerEnv) (out_path din dout : String)
    (l1 l2 listing : List String) (mw : Int) (st st' : PState)
    (h : noErrorLogs st'.log = true) :
    dispatchAll env out_path (l1 ++ l2) st
      = dispatchAll env out_path l2 (dispatchAll env out_path l1 st)
  ∧ noErrorLogs (concurrent_execution env listing din dout mw st').log = true := by
  constructor
  · simp [dispatchAll, List.foldl_append]
  · unfold concurrent_execution
    refine noErrorLogs_logInfo _ _ ?_
    refine dispatchAll_noErrorLogs env dout _ _ ?_
    exact noErrorLogs_logInfo st' _ h

/-- Witness for C8 on concrete file lists and state. -/
theorem C8_failure_isolation_witness :
    dispatchAll testEnv "out" (["in/bad.xml.gz"] ++ ["in/good.xml.gz"])
        ⟨[("in/bad.xml.gz", [9]), ("in/good.xml.gz", [3])], []⟩
      = dispatchAll testEnv "out" ["in/good.xml.gz"]
          (dispatchAll testEnv "out" ["in/bad.xml.gz"]
            ⟨[("in/bad.xml.gz", [9]), ("in/good.xml.gz", [3])], []⟩)
  ∧ noErrorLogs (concurrent_execution testEnv ["bad.xml.gz", "good.xml.gz"] "in" "out" 2
      ⟨[("in/bad.xml.gz", [9]), ("in/good.xml.gz", [3])], []⟩).log = true :=
  C8_failure_isolation testEnv "out" "in" "out" ["in/bad.xml.gz"] ["in/good.xml.gz"]
    ["bad.xml.gz", "good.xml.gz"] 2
    ⟨[("in/bad.xml.gz", [9]), ("in/good.xml.gz", [3])], []⟩
    ⟨[("in/bad.xml.gz", [9]), ("in/good.xml.gz", [3])], []⟩ (by decide)

/-- C8 counterexample: a run over one corrupt-parse file and one good file
completes, produces the good file's compressed output (isolation holds) and
no output for the failing file (so a per-file error did occur, its xml
intermediate is even left behind), yet the log contains no error entry: the
error is not reported, contradicting the claim's reporting requirement. -/
theorem C8_counterexample :
    (let r := concurrent_execution testEnv ["bad.xml.gz", "good.xml.gz"] "in" "out" 2
        ⟨[("in/bad.xml.gz", [9]), ("in/good.xml.gz", [3])], []⟩
     fsExists r.fs ("out/good.jsonl.gz")
       && !fsExists r.fs ("out/bad.jsonl.gz")
       && fsExists r.fs ("in/bad.xml")
       && (r.log.filter (fun e => e.isError)).isEmpty) = true := by decide

end Genie
